import Mathlib

/-!
Verification of the follow/block social-graph subsystem of the repository
(`profiles/models.py`, `profiles/views.py`) against its specification.

The embedding models the database state (User, Profile, Follow, Block
tables), the two follow views, the Block model's clean/save methods, and
the two signal receivers maintaining the denormalized follower counters.

Transactional semantics reflected here, taken from the framework code the
repository runs on:
* `Follow.objects.get_or_create` wraps the INSERT in `transaction.atomic`
  and the `post_save` signal fires inside that block, so an exception in a
  receiver rolls the INSERT back and propagates to the caller;
* `Model.delete` and queryset `delete` run the row deletions and the
  `post_delete` signals inside one `transaction.atomic` block, so an
  exception in a receiver restores the rows and propagates.
An operation that raises therefore returns its error tag together with the
unchanged pre-state.
-/

namespace SocialGraph

/-- Fields of `profiles.models.Profile` used by the follow/block
subsystem (models.py 100-127): `followers_count` and `following_count`
are stored integers defaulting to 0 (the receivers mutate them with
plain Python integer arithmetic, hence `Int`), `is_private` defaults to
false, `who_can_follow` is `"ALL"` or `"NONE"` with default `"ALL"`. -/
structure ProfileRec where
  followers_count : Int
  following_count : Int
  is_private : Bool
  who_can_follow : String
  deriving Repr, DecidableEq

/-- Default Profile field values (models.py: `default=0`,
`default=False`, `default='ALL'`). -/
def ProfileRec.fresh : ProfileRec :=
  { followers_count := 0, following_count := 0,
    is_private := false, who_can_follow := "ALL" }

/-- Database state of the subsystem: the User table (ids), the Profile
table keyed by user id (`OneToOneField`), the Follow table as
`(user, followed_user)` pairs and the Block table as
`(blocker, blocked)` pairs.  `unique_together` on both edge tables means
reachable states carry no duplicate pairs. -/
structure DB where
  users : List Nat
  profiles : List (Nat × ProfileRec)
  follows : List (Nat × Nat)
  blocks : List (Nat × Nat)
  deriving Repr, DecidableEq

/-- related_name of `Profile.user` (models.py line 34): the reverse
accessor from a User object to its Profile row is the attribute named
`"profiles"`. -/
def profileRelatedName : String := "profiles"

/-- Attribute name read by the two counter signal receivers
(models.py 303-304 and 311-312): `instance.user.profile`,
`instance.followed_user.profile`. -/
def handlerProfileAttr : String := "profile"

/-- ValidationError message of Follow.clean (models.py 236). -/
def selfFollowMsg : String := "Users cannot follow themselves"

/-- ValidationError message of Block.clean (models.py 279). -/
def selfBlockMsg : String := "Users cannot block themselves"

/-- Profile row of a user id, if any. -/
def lookupProfile (s : DB) (u : Nat) : Option ProfileRec :=
  (s.profiles.find? fun q => q.1 == u).map Prod.snd

/-- getattr on a User object resolving a one-to-one reverse relation: it
succeeds only when the requested attribute equals the declared
related_name; any other attribute name raises AttributeError, modelled
as `none`. -/
def userGetAttr (s : DB) (u : Nat) (attr : String) : Option ProfileRec :=
  if attr = profileRelatedName then lookupProfile s u else none

/-- Overwrites the profile row of user `u` (a `profile.save()` on an
existing row). -/
def setProfile (s : DB) (u : Nat) (p : ProfileRec) : DB :=
  { s with profiles := s.profiles.map fun q => if q.1 = u then (u, p) else q }

/-- update_follow_counts (models.py 299-306): `post_save` receiver on
Follow.  Reads `instance.user.profile` and
`instance.followed_user.profile` — the attribute named by
`handlerProfileAttr` — increments `following_count` and
`followers_count` and saves both profiles. -/
def update_follow_counts (s : DB) (user followed_user : Nat) : Option DB := do
  let up ← userGetAttr s user handlerProfileAttr
  let s1 := setProfile s user { up with following_count := up.following_count + 1 }
  let fp ← userGetAttr s1 followed_user handlerProfileAttr
  pure (setProfile s1 followed_user { fp with followers_count := fp.followers_count + 1 })

/-- decrease_follow_counts (models.py 308-314): `post_delete` receiver
on Follow.  Reads `instance.user.profile` and
`instance.followed_user.profile` and decrements both counters by one —
plain integer subtraction, with no floor at zero — then saves both. -/
def decrease_follow_counts (s : DB) (user followed_user : Nat) : Option DB := do
  let up ← userGetAttr s user handlerProfileAttr
  let s1 := setProfile s user { up with following_count := up.following_count - 1 }
  let fp ← userGetAttr s1 followed_user handlerProfileAttr
  pure (setProfile s1 followed_user { fp with followers_count := fp.followers_count - 1 })

/-- Outcomes of the follow_user view (views.py 60-73).
`attributeError` is an uncaught exception escaping the `post_save`
receiver: the view catches only `User.DoesNotExist`. -/
inductive FollowRes where
  | followedOk
  | alreadyFollowing
  | cannotFollowSelf
  | userNotFound
  | attributeError
  deriving Repr, DecidableEq

/-- follow_user (views.py 60-73) for an authenticated request with
`request.user = a` and url argument `user_id`: the self-check, the User
lookup, then `Follow.objects.get_or_create(user=request.user,
followed_user=followed_user)`.  The `post_save` receiver runs inside
get_or_create's atomic block with the new row present; if it raises,
the row is rolled back and the exception escapes the view. -/
def follow_user (s : DB) (a user_id : Nat) : FollowRes × DB :=
  if a = user_id then (.cannotFollowSelf, s)
  else if user_id ∉ s.users then (.userNotFound, s)
  else if (a, user_id) ∈ s.follows then (.alreadyFollowing, s)
  else
    match update_follow_counts { s with follows := s.follows ++ [(a, user_id)] } a user_id with
    | some s2 => (.followedOk, s2)
    | none => (.attributeError, s)

/-- Outcomes of the unfollow_user view (views.py 76-92). -/
inductive UnfollowRes where
  | unfollowedOk
  | cannotUnfollowSelf
  | notFollowing
  | userNotFound
  | attributeError
  deriving Repr, DecidableEq

/-- unfollow_user (views.py 76-92) for an authenticated request with
`request.user = a`: the User lookup, the self-check,
`Follow.objects.get(user=request.user, followed_user=followed_user)`,
then `follow.delete()`.  The `post_delete` receiver runs inside the
delete collector's atomic block; if it raises, the deleted row is
restored and the exception escapes the view. -/
def unfollow_user (s : DB) (a user_id : Nat) : UnfollowRes × DB :=
  if user_id ∉ s.users then (.userNotFound, s)
  else if user_id = a then (.cannotUnfollowSelf, s)
  else if (a, user_id) ∉ s.follows then (.notFollowing, s)
  else
    match decrease_follow_counts
        { s with follows := s.follows.filter fun e => decide (e ≠ (a, user_id)) } a user_id with
    | some s2 => (.unfollowedOk, s2)
    | none => (.attributeError, s)

/-- Outcomes of creating a Block row (model layer plus form
validation). -/
inductive BlockRes where
  | blockedOk
  | validationError
  | integrityError
  | attributeError
  deriving Repr, DecidableEq

/-- Block.clean (models.py 274-279): ValidationError when a user blocks
themselves. -/
def Block.clean (blocker blocked : Nat) : Except String Unit :=
  if blocker = blocked then .error selfBlockMsg else .ok ()

/-- Follow.clean (models.py 231-236): ValidationError when a user
follows themselves. -/
def Follow.clean (user followed_user : Nat) : Except String Unit :=
  if user = followed_user then .error selfFollowMsg else .ok ()

/-- Queryset delete
`Follow.objects.filter(user=u, followed_user=fu).delete()` as run inside
Block.save: when a row matches, it is removed and the `post_delete`
receiver fires for it inside the collector's atomic block (`none` models
the receiver's exception propagating after rollback); when no row
matches, no signal fires and the state is unchanged. -/
def followQuerysetDelete (s : DB) (u fu : Nat) : Option DB :=
  if (u, fu) ∈ s.follows then
    decrease_follow_counts
      { s with follows := s.follows.filter fun e => decide (e ≠ (u, fu)) } u fu
  else pure s

/-- Block.save (models.py 281-295): deletes Follow rows blocker→blocked
and blocked→blocker, then inserts the Block row (`unique_together
('blocker', 'blocked')` makes a duplicate INSERT an IntegrityError).
An exception anywhere leaves the whole save without effect — the
enclosing transaction rolls back — and propagates to the caller. -/
def Block.save (s : DB) (blocker blocked : Nat) : BlockRes × DB :=
  match followQuerysetDelete s blocker blocked with
  | none => (.attributeError, s)
  | some s1 =>
    match followQuerysetDelete s1 blocked blocker with
    | none => (.attributeError, s)
    | some s2 =>
      if (blocker, blocked) ∈ s2.blocks then (.integrityError, s)
      else (.blockedOk, { s2 with blocks := s2.blocks ++ [(blocker, blocked)] })

/-- RequestBlock: the repository's block-creation flow.  The only
surface creating Block rows is ModelForm-driven, which runs full_clean
(invoking `Block.clean`) and then `Block.save`. -/
def requestBlock (s : DB) (blocker blocked : Nat) : BlockRes × DB :=
  match Block.clean blocker blocked with
  | .error _ => (.validationError, s)
  | .ok _ => Block.save s blocker blocked

/-- Profile.is_following (models.py 189-194):
`Follow.objects.filter(user=self.user, followed_user=user).exists()`,
with `selfUser` the profile's owner. -/
def is_following (s : DB) (selfUser u : Nat) : Bool :=
  decide ((selfUser, u) ∈ s.follows)

/-- Profile.can_follow (models.py 178-187), with `selfUser` and `p` the
profile's owner and row: denies when the profile is private *and*
`who_can_follow` is `"NONE"`; otherwise allows unless a Block row with
blocker = the candidate follower and blocked = the profile's owner
exists. -/
def can_follow (s : DB) (selfUser : Nat) (p : ProfileRec) (u : Nat) : Bool :=
  if p.is_private = true ∧ p.who_can_follow = "NONE" then false
  else decide ((u, selfUser) ∉ s.blocks)

/-- Mutation operations of the subsystem, for invariant statements. -/
inductive Op where
  | follow (a b : Nat)
  | unfollow (a b : Nat)
  | block (a b : Nat)
  deriving Repr, DecidableEq

/-- State after running one operation (its response discarded). -/
def applyOp (s : DB) : Op → DB
  | .follow a b => (follow_user s a b).2
  | .unfollow a b => (unfollow_user s a b).2
  | .block a b => (requestBlock s a b).2

/-- Follow/block mutual exclusion: no pair has a Follow edge together
with a Block edge in either direction. -/
def mutex (s : DB) : Prop :=
  ∀ a b : Nat, (a, b) ∈ s.follows → (a, b) ∉ s.blocks ∧ (b, a) ∉ s.blocks

/-- Two fresh users with default profiles and no edges. -/
def dbFresh : DB :=
  { users := [1, 2], profiles := [(1, ProfileRec.fresh), (2, ProfileRec.fresh)],
    follows := [], blocks := [] }

/-- Two users where 1 follows 2 and the counters match the edge. -/
def dbFollowed : DB :=
  { users := [1, 2],
    profiles := [(1, { ProfileRec.fresh with following_count := 1 }),
                 (2, { ProfileRec.fresh with followers_count := 1 })],
    follows := [(1, 2)], blocks := [] }

/-- Two users where 2 has blocked 1 and no follow edges exist. -/
def dbBlocked : DB :=
  { users := [1, 2], profiles := [(1, ProfileRec.fresh), (2, ProfileRec.fresh)],
    follows := [], blocks := [(2, 1)] }

/-- Reading the attribute named by `handlerProfileAttr` on a User raises
AttributeError in every state: the declared related_name differs. -/
theorem userGetAttr_handlerAttr (s : DB) (u : Nat) :
    userGetAttr s u handlerProfileAttr = none := by
  have h : handlerProfileAttr ≠ profileRelatedName := by decide
  simp [userGetAttr, h]

/-- The `post_save` counter receiver never completes. -/
theorem update_follow_counts_eq_none (s : DB) (u v : Nat) :
    update_follow_counts s u v = none := by
  simp [update_follow_counts, userGetAttr_handlerAttr]

/-- The `post_delete` counter receiver never completes. -/
theorem decrease_follow_counts_eq_none (s : DB) (u v : Nat) :
    decrease_follow_counts s u v = none := by
  simp [decrease_follow_counts, userGetAttr_handlerAttr]

/-- follow_user leaves the database unchanged on every input. -/
theorem follow_user_snd (s : DB) (a b : Nat) : (follow_user s a b).2 = s := by
  simp only [follow_user, update_follow_counts_eq_none]
  split
  · rfl
  · split
    · rfl
    · split
      · rfl
      · rfl

/-- unfollow_user leaves the database unchanged on every input. -/
theorem unfollow_user_snd (s : DB) (a b : Nat) : (unfollow_user s a b).2 = s := by
  simp only [unfollow_user, decrease_follow_counts_eq_none]
  split
  · rfl
  · split
    · rfl
    · split
      · rfl
      · rfl

/-- The queryset delete inside Block.save raises exactly when a matching
Follow row exists. -/
theorem followQuerysetDelete_eq (s : DB) (u fu : Nat) :
    followQuerysetDelete s u fu = if (u, fu) ∈ s.follows then none else some s := by
  simp [followQuerysetDelete, decrease_follow_counts_eq_none, pure]

/-- Full case analysis of the block-creation flow. -/
theorem requestBlock_eq (s : DB) (a b : Nat) :
    requestBlock s a b =
      if a = b then (.validationError, s)
      else if (a, b) ∈ s.follows then (.attributeError, s)
      else if (b, a) ∈ s.follows then (.attributeError, s)
      else if (a, b) ∈ s.blocks then (.integrityError, s)
      else (.blockedOk, { s with blocks := s.blocks ++ [(a, b)] }) := by
  by_cases hab : a = b
  · simp [requestBlock, Block.clean, hab]
  · by_cases h1 : (a, b) ∈ s.follows
    · simp [requestBlock, Block.clean, Block.save, followQuerysetDelete_eq, hab, h1]
    · by_cases h2 : (b, a) ∈ s.follows
      · simp [requestBlock, Block.clean, Block.save, followQuerysetDelete_eq, hab, h1, h2]
      · by_cases h3 : (a, b) ∈ s.blocks
        · simp [requestBlock, Block.clean, Block.save, followQuerysetDelete_eq, hab, h1, h2, h3]
        · simp [requestBlock, Block.clean, Block.save, followQuerysetDelete_eq, hab, h1, h2, h3]

/-- When the view reaches edge creation, the `post_save` receiver raises
and the transaction rolls back. -/
theorem follow_user_create_aborts (s : DB) (a b : Nat) (hab : a ≠ b) (hb : b ∈ s.users)
    (hf : (a, b) ∉ s.follows) : follow_user s a b = (.attributeError, s) := by
  simp [follow_user, hab, hb, hf, update_follow_counts_eq_none]

/-- When the view reaches edge deletion, the `post_delete` receiver
raises and the transaction rolls back. -/
theorem unfollow_user_delete_aborts (s : DB) (a b : Nat) (hab : a ≠ b) (hb : b ∈ s.users)
    (hf : (a, b) ∈ s.follows) : unfollow_user s a b = (.attributeError, s) := by
  simp [unfollow_user, Ne.symm hab, hb, hf, decrease_follow_counts_eq_none]

/-- C1: after any operation of the subsystem completes (follow, unfollow
or block), no pair of users ever has a Follow edge together with a Block
edge in either direction, provided the pre-state satisfied that
invariant; in particular follow_user never adds a Follow row (so in
particular never while a Block row exists): every successful block
insertion is preceded by both directional Follow deletes finding
nothing, and every Follow creation attempt is rolled back by the
crashing counter receiver. -/
theorem follow_block_mutual_exclusion_preserved (s : DB) (op : Op) (h : mutex s) :
    mutex (applyOp s op) ∧ ∀ a b : Nat, ((follow_user s a b).2).follows = s.follows := by
  constructor
  · cases op with
    | follow a b => simpa only [applyOp, follow_user_snd] using h
    | unfollow a b => simpa only [applyOp, unfollow_user_snd] using h
    | block a b =>
      simp only [applyOp, requestBlock_eq]
      split
      · exact h
      · split
        · exact h
        · split
          · exact h
          · split
            · exact h
            · rename_i hab h1 h2 h3
              intro x y hxy
              simp only [List.mem_append, List.mem_singleton] at *
              refine ⟨?_, ?_⟩
              · rintro (hold | hnew)
                · exact (h x y hxy).1 hold
                · rw [Prod.mk.injEq] at hnew
                  exact h1 (by rw [hnew.1, hnew.2] at hxy; exact hxy)
              · rintro (hold | hnew)
                · exact (h x y hxy).2 hold
                · rw [Prod.mk.injEq] at hnew
                  exact h2 (by rw [hnew.1, hnew.2] at hxy; exact hxy)
  · intro a b
    rw [follow_user_snd]

/-- C1 witness: the invariant holds after blocking on a fresh
two-user state. -/
theorem follow_block_mutual_exclusion_preserved_witness :
    mutex (applyOp dbFresh (Op.block 1 2)) :=
  (follow_block_mutual_exclusion_preserved dbFresh (Op.block 1 2)
    (by intro a b hf; simp [dbFresh] at hf)).1

/-- C2: the claimed synchronized counter maintenance does not happen: on
a fresh two-user state the first follow attempt raises AttributeError
(the receiver reads `user.profile`, the related_name is `profiles`), the
transaction rolls back, no Follow row is stored and user 2's
followers_count stays 0 — the mutation never completes with an updated
counter. -/
theorem first_follow_aborts_no_counter_update :
    follow_user dbFresh 1 2 = (.attributeError, dbFresh) ∧
    ((follow_user dbFresh 1 2).2).follows = [] ∧
    (lookupProfile ((follow_user dbFresh 1 2).2) 2).map ProfileRec.followers_count
      = some 0 := by
  decide

/-- C3: follow_user performs no block check at all — its response is
invariant under arbitrary replacement of the Block table — and with a
Block row (2,1) present, follow_user 1 2 reaches edge creation and fails
with the receiver's AttributeError, not with a blocked rejection. -/
theorem follow_ignores_blocks_and_aborts :
    (∀ (s : DB) (a b : Nat) (bl : List (Nat × Nat)),
        (follow_user { s with blocks := bl } a b).1 = (follow_user s a b).1) ∧
    follow_user dbBlocked 1 2 = (.attributeError, dbBlocked) := by
  refine ⟨fun s a b bl => ?_, by decide⟩
  simp only [follow_user, update_follow_counts_eq_none]
  by_cases h1 : a = b
  · simp [h1]
  · by_cases h2 : b ∈ s.users <;> by_cases h3 : (a, b) ∈ s.follows <;> simp [h1, h2, h3]

/-- C4: blocking does not delete existing Follow edges: with Follow
(1,2) present, RequestBlock in either direction raises AttributeError
from the `post_delete` receiver, the transaction rolls back, no Block
row is created and user 1 still follows user 2. -/
theorem block_with_existing_follow_aborts :
    requestBlock dbFollowed 1 2 = (.attributeError, dbFollowed) ∧
    requestBlock dbFollowed 2 1 = (.attributeError, dbFollowed) ∧
    is_following (requestBlock dbFollowed 2 1).2 1 2 = true := by
  decide

/-- C5: calling follow_user twice on a fresh pair stores zero Follow
edges — not one — and increments followers_count zero times — not once:
both calls raise AttributeError and the second does not report
already-following. -/
theorem double_follow_no_edge_no_increment :
    (follow_user dbFresh 1 2).1 = .attributeError ∧
    (follow_user (follow_user dbFresh 1 2).2 1 2).1 = .attributeError ∧
    (follow_user (follow_user dbFresh 1 2).2 1 2).1 ≠ .alreadyFollowing ∧
    ((follow_user (follow_user dbFresh 1 2).2 1 2).2).follows = [] ∧
    (lookupProfile ((follow_user (follow_user dbFresh 1 2).2 1 2).2) 2).map
        ProfileRec.followers_count = some 0 := by
  decide

/-- C6: both counter receivers read the attribute `profile` on the two
User objects while the one-to-one link's related_name is `profiles`, so
the lookup raises AttributeError in every state and both the follow
creation and the unfollow deletion abort instead of completing with
updated counters. -/
theorem counter_handlers_always_raise (s : DB) (a b : Nat) (hab : a ≠ b)
    (hb : b ∈ s.users) :
    update_follow_counts s a b = none ∧ decrease_follow_counts s a b = none ∧
    ((a, b) ∉ s.follows → follow_user s a b = (.attributeError, s)) ∧
    ((a, b) ∈ s.follows → unfollow_user s a b = (.attributeError, s)) :=
  ⟨update_follow_counts_eq_none s a b, decrease_follow_counts_eq_none s a b,
   fun hf => follow_user_create_aborts s a b hab hb hf,
   fun hf => unfollow_user_delete_aborts s a b hab hb hf⟩

/-- C6 witness: a concrete new follow and a concrete unfollow both raise
AttributeError. -/
theorem counter_handlers_always_raise_witness :
    follow_user dbFollowed 2 1 = (.attributeError, dbFollowed) ∧
    unfollow_user dbFollowed 1 2 = (.attributeError, dbFollowed) :=
  ⟨(counter_handlers_always_raise dbFollowed 2 1 (by decide) (by decide)).2.2.1 (by decide),
   (counter_handlers_always_raise dbFollowed 1 2 (by decide) (by decide)).2.2.2 (by decide)⟩

/-- C7: for every user `a` and every state, follow_user a a fails with
the self-follow rejection and RequestBlock a a fails with the
self-block ValidationError, in both cases leaving the database
unchanged (no edge created). -/
theorem self_follow_and_self_block_rejected (s : DB) (a : Nat) :
    follow_user s a a = (.cannotFollowSelf, s) ∧
    requestBlock s a a = (.validationError, s) := by
  constructor
  · simp [follow_user]
  · simp [requestBlock, Block.clean]

/-- C8 amended: Profile.can_follow denies exactly when the profile is
private *and* its `who_can_follow` is `"NONE"`, or when the candidate
follower has blocked the profile's owner; `who_can_follow` equal to
`"NONE"` alone does not deny. -/
theorem can_follow_false_iff (s : DB) (selfUser : Nat) (p : ProfileRec) (u : Nat) :
    can_follow s selfUser p u = false ↔
      (p.is_private = true ∧ p.who_can_follow = "NONE") ∨ (u, selfUser) ∈ s.blocks := by
  by_cases h : p.is_private = true ∧ p.who_can_follow = "NONE" <;>
    simp [can_follow, h]

/-- C8 counterexample: a public profile with `who_can_follow` equal to
`"NONE"` can still be followed according to Profile.can_follow, so
denial is not independent of the is_private flag. -/
theorem can_follow_none_without_private_allows :
    can_follow dbFresh 2 { ProfileRec.fresh with who_can_follow := "NONE" } 1 = true := by
  decide

/-- C9 amended: for distinct users a and b with no Follow edge (a,b),
unfollow_user a b fails with the not-following rejection and leaves the
database — edges and counters — unchanged. -/
theorem unfollow_without_edge_not_following (s : DB) (a b : Nat) (hab : a ≠ b)
    (hb : b ∈ s.users) (hf : (a, b) ∉ s.follows) :
    unfollow_user s a b = (.notFollowing, s) := by
  simp [unfollow_user, Ne.symm hab, hb, hf]

/-- C9 witness: a concrete no-edge unfollow between distinct users
returns the not-following rejection with the state unchanged. -/
theorem unfollow_without_edge_not_following_witness :
    unfollow_user dbFresh 1 2 = (.notFollowing, dbFresh) :=
  unfollow_without_edge_not_following dbFresh 1 2 (by decide) (by decide) (by decide)

/-- C9 counterexample: for a = b (also a no-edge pair, since self-edges
never exist) the view rejects with the cannot-unfollow-yourself error,
not the not-following error the claim names. -/
theorem unfollow_self_without_edge_not_notFollowing :
    (unfollow_user dbFresh 1 1).1 = .cannotUnfollowSelf ∧
    (unfollow_user dbFresh 1 1).1 ≠ .notFollowing := by
  decide

/-- C10: the decrement-on-destruction maintainer never completes in any
state — it raises AttributeError on the `profile` attribute read — so on
a concrete destruction attempt the edge deletion rolls back and the
followers counter keeps its prior value instead of being decremented
by 1. -/
theorem decrease_handler_never_completes :
    (∀ (s : DB) (u v : Nat), decrease_follow_counts s u v = none) ∧
    unfollow_user dbFollowed 1 2 = (.attributeError, dbFollowed) ∧
    (lookupProfile ((unfollow_user dbFollowed 1 2).2) 2).map ProfileRec.followers_count
      = some 1 :=
  ⟨decrease_follow_counts_eq_none, by decide, by decide⟩

end SocialGraph
